import Mathlib

/-!
Shallow embedding of
`src/Project/03_coffee_shop_full_stack/starter_code/frontend/src/environments/environment.ts`.

The source file exports a single constant object literal:

  export const environment = {
    production: false,
    apiServerUrl: 'http://127.0.0.1:5000',
    auth0: {
      url: 'mikilade.us',
      audience: 'https://csfsauth',
      clientId: '334zMeab2pYsTnt0cl8HImUCh0Zln5JX',
      callbackURL: 'http://localhost:8100',
    }
  };

We embed the object's shape as Lean structures (field names kept from the
source), the constant itself as a Lean constant, and the act of reading the
exported constant as a total function `get`.
-/

namespace CoffeeShopEnv

/-- Shape of the nested `auth0` object of the source literal. -/
structure Auth0Config where
  url : String
  audience : String
  clientId : String
  callbackURL : String
deriving DecidableEq, Repr

/-- Shape of the exported `environment` object literal (the spec calls this
entity `EnvironmentConfig`; field names are the source's). -/
structure EnvironmentConfig where
  production : Bool
  apiServerUrl : String
  auth0 : Auth0Config
deriving DecidableEq, Repr

/-- The exported constant `environment`, field for field from the source. -/
def environment : EnvironmentConfig :=
  { production := false
  , apiServerUrl := "http://127.0.0.1:5000"
  , auth0 :=
      { url := "mikilade.us"
      , audience := "https://csfsauth"
      , clientId := "334zMeab2pYsTnt0cl8HImUCh0Zln5JX"
      , callbackURL := "http://localhost:8100" } }

/-- Reading the exported module constant: importing the module and evaluating
`environment` always yields the same constant value.  This is the spec's
`get()` accessor. -/
def get (_u : Unit) : EnvironmentConfig := environment

/-- The deployment variants defined by the artifact.  The source file defines
exactly one object literal and exports it unconditionally, so the list has a
single element. -/
def variants : List EnvironmentConfig := [environment]

/-- The operations the artifact makes available on the configuration.  The
source defines no function and no assignment touching `environment`; the only
operation a consumer has is reading the exported constant. -/
inductive Op where
  | read
deriving DecidableEq, Repr

/-- Effect of one operation on the configuration value held by the module.
Reading does not change it; no mutating operation exists in the source. -/
def applyOp (s : EnvironmentConfig) : Op → EnvironmentConfig
  | Op.read => s

/-- Run a sequence of operations from a starting configuration value. -/
def runOps (s : EnvironmentConfig) : List Op → EnvironmentConfig
  | [] => s
  | o :: os => runOps (applyOp s o) os

/-- Split a character list at the first occurrence of the separator `://`,
returning the part before and the part after, or `none` when the separator
does not occur. -/
def splitSep : List Char → Option (List Char × List Char)
  | [] => none
  | ':' :: '/' :: '/' :: rest => some ([], rest)
  | c :: rest =>
    match splitSep rest with
    | none => none
    | some (a, b) => some (c :: a, b)

/-- Modelled from the spec: the artifact defines no URL parser, so the spec's
notion of a well-formed absolute URL ("a scheme followed by a host") is
embedded here: a non-empty all-letter scheme, the separator `://`, and a
non-empty remainder. -/
def isAbsoluteUrl (s : String) : Bool :=
  match splitSep s.toList with
  | none => false
  | some (scheme, rest) =>
    decide (0 < scheme.length) && scheme.all Char.isAlpha &&
    decide (0 < rest.length)

/-- Scheme part of a URL string: what stands before the first `://` (empty
when the separator is absent). -/
def schemeOf (s : String) : String :=
  match splitSep s.toList with
  | none => ""
  | some (scheme, _) => String.mk scheme

/-- Everything after the first `://` of a URL string (empty when the
separator is absent). -/
def afterScheme (s : String) : String :=
  match splitSep s.toList with
  | none => ""
  | some (_, rest) => String.mk rest

/-- Host part: the remainder after the scheme, cut before any `:` (port) or
`/` (path). -/
def hostOf (s : String) : String :=
  String.mk ((afterScheme s).toList.takeWhile (fun c => !(c == ':' || c == '/')))

/-- A loopback or local host name. -/
def isLocalHost (h : String) : Bool := h == "127.0.0.1" || h == "localhost"

end CoffeeShopEnv

namespace CoffeeShopEnv

/-- Claim C1: for a given deployment target, every call to `get()` within a
process lifetime returns the same `EnvironmentConfig` value; reading it twice
yields equal results. -/
theorem get_constant : ∀ u v : Unit, get u = get v := by
  intro _ _; rfl

/-- Claim C2: in the development variant, `get()`'s API base URL equals
exactly "http://127.0.0.1:5000" and its identity-provider client id equals
exactly "334zMeab2pYsTnt0cl8HImUCh0Zln5JX". -/
theorem get_dev_values :
    (get ()).apiServerUrl = "http://127.0.0.1:5000" ∧
    (get ()).auth0.clientId = "334zMeab2pYsTnt0cl8HImUCh0Zln5JX" := by
  exact ⟨rfl, rfl⟩

/-- Claim C3: the configuration object is immutable after construction: under
every sequence of the operations the artifact defines (only reads), the
configuration value is unchanged, so no field is ever mutated. -/
theorem config_immutable :
    ∀ ops : List Op, runOps environment ops = environment := by
  intro ops
  induction ops with
  | nil => rfl
  | cons o os ih => cases o; exact ih

/-- Claim C4: `get()` always succeeds and cannot fail at runtime: it is a total
function performing no validation and no I/O, and for every input it returns
the configuration value (never an error). -/
theorem get_total : ∀ u : Unit, get u = environment := by
  intro _; rfl

/-- Claim C5: in the supplied configuration every string field (API base URL,
identity-provider domain, audience, client id, callback URL) is non-empty. -/
theorem all_strings_nonempty :
    environment.apiServerUrl ≠ "" ∧
    environment.auth0.url ≠ "" ∧
    environment.auth0.audience ≠ "" ∧
    environment.auth0.clientId ≠ "" ∧
    environment.auth0.callbackURL ≠ "" := by
  decide

/-- Claim C6: the API base URL and the callback URL of the supplied
configuration parse as well-formed absolute URLs (a scheme followed by a
host). -/
theorem urls_wellformed :
    isAbsoluteUrl environment.apiServerUrl = true ∧
    isAbsoluteUrl environment.auth0.callbackURL = true := by
  decide

/-- Claim C7 counterexample: across the variants defined by the artifact there
is no variant with `production = true`, so "`isProduction` is true in exactly
one designated variant" is false: the count of such variants is 0, not 1. -/
theorem production_count_ne_one :
    ¬ ((variants.filter (fun v => v.production)).length = 1) := by
  decide

/-- Claim C7 amended: across the set of deployment variants defined by the
artifact, `isProduction` is true in no variant: every defined variant has
`production = false`. -/
theorem production_false_everywhere :
    (variants.filter (fun v => v.production)).length = 0 ∧
    ∀ v, v ∈ variants → v.production = false := by
  refine ⟨by decide, ?_⟩
  intro v hv
  simp only [variants, List.mem_singleton] at hv
  subst hv
  rfl

/-- Witness for the amended claim C7 at the concrete variant `environment`. -/
theorem production_false_everywhere_witness :
    environment.production = false :=
  production_false_everywhere.2 environment (by simp [variants])

/-- Claim C8: the value returned by `get()` is never a mix of fields from two
different variants: it always equals one complete variant record from the
artifact's variant set. -/
theorem get_is_complete_variant : ∀ u : Unit, get u ∈ variants := by
  intro _
  simp [get, variants]

/-- Claim C9: the artifact defines exactly one configuration variant, exported
unconditionally, with `production = false` and every field a fixed
compile-time string literal. -/
theorem single_variant_literals :
    variants.length = 1 ∧
    variants = [environment] ∧
    environment.production = false ∧
    environment.apiServerUrl = "http://127.0.0.1:5000" ∧
    environment.auth0.url = "mikilade.us" ∧
    environment.auth0.audience = "https://csfsauth" ∧
    environment.auth0.clientId = "334zMeab2pYsTnt0cl8HImUCh0Zln5JX" ∧
    environment.auth0.callbackURL = "http://localhost:8100" := by
  refine ⟨rfl, rfl, rfl, rfl, rfl, rfl, rfl, rfl⟩

/-- Claim C10: `apiServerUrl` and `callbackURL` use the unencrypted "http"
scheme with loopback/local hosts ("127.0.0.1" and "localhost"), while
`auth0.audience` is an "https" URL whose remainder is exactly the audience
identifier "csfsauth" with no further host portion. -/
theorem scheme_host_facts :
    schemeOf environment.apiServerUrl = "http" ∧
    hostOf environment.apiServerUrl = "127.0.0.1" ∧
    isLocalHost (hostOf environment.apiServerUrl) = true ∧
    schemeOf environment.auth0.callbackURL = "http" ∧
    hostOf environment.auth0.callbackURL = "localhost" ∧
    isLocalHost (hostOf environment.auth0.callbackURL) = true ∧
    schemeOf environment.auth0.audience = "https" ∧
    afterScheme environment.auth0.audience = "csfsauth" := by
  decide

end CoffeeShopEnv
